import Mathlib

/-!
Shallow embedding of the zap-desktop renderer selector layer
(src/renderer/reducers/info/selectors.js,
src/renderer/reducers/invoice/selectors.js) and of the amount computation in
src/renderer/components/Request/RequestSummary.js, together with an
executable model of the npm semver package's strict parsing and comparison,
which the capability-flag selectors call through `semver.gte`.

JavaScript conventions used throughout the model:
* `JsStr` distinguishes `undefined`, `null` and string values; a string is
  truthy exactly when it is nonempty.
* `JsArr` distinguishes `undefined`, `null` and array values; an *empty*
  array is truthy in JavaScript.
* `JsNum` distinguishes `undefined`, `null` and numbers; `0` is falsy.
* A selector that can raise a `TypeError` (property access on `undefined`)
  is modelled with `Except Unit`, where `Except.error ()` stands for the
  thrown exception and `Except.ok` for normal return.
-/

deriving instance DecidableEq for Except

namespace Zap

/-- JavaScript string-or-missing value: `undefined`, `null`, or a string. -/
inductive JsStr
  | undef
  | null
  | str (s : String)
deriving Repr, DecidableEq

/-- JavaScript truthiness of a `JsStr`: only a nonempty string is truthy. -/
def JsStr.truthy : JsStr → Bool
  | JsStr.str s => s ≠ ""
  | _ => false

/-- String interpolation of a `JsStr` as it happens in a template literal
path such as the backtick template joining chain and network with a dot:
`undefined` prints as "undefined" and `null` as "null". -/
def JsStr.pathKey : JsStr → String
  | JsStr.undef => "undefined"
  | JsStr.null => "null"
  | JsStr.str s => s

/-- JavaScript array-of-strings-or-missing value. -/
inductive JsArr
  | undef
  | null
  | arr (l : List String)
deriving Repr, DecidableEq

/-- JavaScript truthiness of a `JsArr`: every array object is truthy,
including the empty array. -/
def JsArr.truthy : JsArr → Bool
  | JsArr.arr _ => true
  | _ => false

/-- JavaScript number-or-missing value. -/
inductive JsNum
  | undef
  | null
  | num (n : Int)
deriving Repr, DecidableEq

/-- JavaScript truthiness of a `JsNum`: a number is truthy unless it is 0. -/
def JsNum.truthy : JsNum → Bool
  | JsNum.num n => n ≠ 0
  | _ => false

/-- Underlying integer of a `JsNum`, with a default for the missing cases. -/
def JsNum.valueOr : JsNum → Int → Int
  | JsNum.num n, _ => n
  | _, d => d

namespace Semver

/-- A prerelease identifier: numeric identifiers are compared numerically,
alphanumeric ones lexically by code unit. -/
inductive PreId
  | num (n : Nat)
  | str (s : String)
deriving Repr, DecidableEq

/-- A parsed semantic version `major.minor.patch-pre+build`. -/
structure Version where
  major : Nat
  minor : Nat
  patch : Nat
  pre : List PreId
  build : List String
deriving Repr, DecidableEq

/-- JavaScript `Number.MAX_SAFE_INTEGER`, the bound the npm semver
constructor enforces on numeric components. -/
def maxSafeInteger : Nat := 9007199254740991

/-- Decimal digit test. -/
def isDigitChar (c : Char) : Bool := '0' ≤ c && c ≤ '9'

/-- Characters allowed in prerelease and build identifiers:
`[0-9A-Za-z-]`. -/
def isIdentChar (c : Char) : Bool :=
  isDigitChar c || ('a' ≤ c && c ≤ 'z') || ('A' ≤ c && c ≤ 'Z') || c = '-'

/-- Value of a digit string. -/
def digitsToNat (cs : List Char) : Nat :=
  cs.foldl (fun acc c => acc * 10 + (c.toNat - '0'.toNat)) 0

/-- Parse a numeric identifier matching the strict pattern
`0|[1-9][0-9]*` (nonempty, all digits, no leading zero). -/
def parseNumericId (cs : List Char) : Option Nat :=
  if cs = [] then none
  else if !(cs.all isDigitChar) then none
  else if cs.headD '0' = '0' && cs.length > 1 then none
  else some (digitsToNat cs)

/-- Parse one prerelease identifier. A nonempty all-digit identifier must
have no leading zero; the npm constructor keeps it as a number only below
`Number.MAX_SAFE_INTEGER`, otherwise as a string. Identifiers with a
letter or hyphen are string identifiers. -/
def parsePreId (s : String) : Option PreId :=
  let cs := s.data
  if cs = [] then none
  else if !(cs.all isIdentChar) then none
  else if cs.all isDigitChar then
    match parseNumericId cs with
    | none => none
    | some n => some (if n < maxSafeInteger then PreId.num n else PreId.str s)
  else some (PreId.str s)

/-- Parse one build identifier: nonempty over `[0-9A-Za-z-]`. -/
def parseBuildId (s : String) : Option String :=
  if s.data ≠ [] && s.data.all isIdentChar then some s else none

/-- Split a character list at the first occurrence of `sep`; the second
component is `none` when `sep` does not occur. -/
def breakAtChar (sep : Char) : List Char → List Char × Option (List Char)
  | [] => ([], none)
  | c :: cs =>
    if c = sep then ([], some cs)
    else
      let r := breakAtChar sep cs
      (c :: r.fst, r.snd)

/-- Split a character list on every occurrence of `sep` (the model of
JavaScript `String.prototype.split` with a single-character separator). -/
def splitOnChar (sep : Char) : List Char → List (List Char)
  | [] => [[]]
  | c :: cs =>
    let r := splitOnChar sep cs
    if c = sep then [] :: r else (c :: r.headD []) :: r.tail

/-- Trim leading and trailing whitespace. -/
def jsTrim (cs : List Char) : List Char :=
  ((cs.dropWhile Char.isWhitespace).reverse.dropWhile Char.isWhitespace).reverse

/-- Strict semver parse, after the npm `new SemVer(version)` constructor
with `loose = false`: trim, length bound 256, optional leading `v`,
`major.minor.patch` of numeric identifiers bounded by
`Number.MAX_SAFE_INTEGER`, optional `-prerelease` and `+build` identifier
lists. Returns `none` where the constructor throws `Invalid Version`. -/
def parseVersion (input : String) : Option Version :=
  let t := jsTrim input.data
  if t.length > 256 then none
  else
    let t := match t with
      | 'v' :: rest => rest
      | other => other
    let corePre := breakAtChar '+' t
    let mainPre := breakAtChar '-' corePre.fst
    match splitOnChar '.' mainPre.fst with
    | [ma, mi, pa] =>
      match parseNumericId ma, parseNumericId mi, parseNumericId pa with
      | some major, some minor, some patch =>
        if major > maxSafeInteger || minor > maxSafeInteger || patch > maxSafeInteger then none
        else
          let preIds : Option (List PreId) :=
            match mainPre.snd with
            | none => some []
            | some p => (splitOnChar '.' p).mapM (fun cs => parsePreId (String.mk cs))
          let buildIds : Option (List String) :=
            match corePre.snd with
            | none => some []
            | some b => (splitOnChar '.' b).mapM (fun cs => parseBuildId (String.mk cs))
          match preIds, buildIds with
          | some pre, some build => some ⟨major, minor, patch, pre, build⟩
          | _, _ => none
      | _, _, _ => none
    | _ => none

/-- Code-unit comparison of character lists, the model of JavaScript
string relational comparison on the ASCII identifiers involved. -/
def cmpCharList : List Char → List Char → Ordering
  | [], [] => Ordering.eq
  | [], _ :: _ => Ordering.lt
  | _ :: _, [] => Ordering.gt
  | a :: as, b :: bs =>
    if a.toNat < b.toNat then Ordering.lt
    else if b.toNat < a.toNat then Ordering.gt
    else cmpCharList as bs

/-- npm `compareIdentifiers`: two numeric identifiers compare numerically,
a numeric identifier is below any alphanumeric one, and two alphanumeric
identifiers compare as JavaScript strings. -/
def cmpPreId : PreId → PreId → Ordering
  | PreId.num a, PreId.num b => compare a b
  | PreId.num _, PreId.str _ => Ordering.lt
  | PreId.str _, PreId.num _ => Ordering.gt
  | PreId.str a, PreId.str b => cmpCharList a.data b.data

/-- Pairwise comparison of two nonempty prerelease identifier lists; the
list that runs out first is smaller. -/
def cmpPreIds : List PreId → List PreId → Ordering
  | [], [] => Ordering.eq
  | [], _ :: _ => Ordering.lt
  | _ :: _, [] => Ordering.gt
  | a :: as, b :: bs =>
    match cmpPreId a b with
    | Ordering.eq => cmpPreIds as bs
    | o => o

/-- npm `comparePre`: a version with a prerelease list is below the same
version without one; two prerelease lists compare pairwise. -/
def cmpPre : List PreId → List PreId → Ordering
  | [], [] => Ordering.eq
  | [], _ :: _ => Ordering.gt
  | _ :: _, [] => Ordering.lt
  | a :: as, b :: bs => cmpPreIds (a :: as) (b :: bs)

/-- npm `compare`: major, minor, patch numerically, then the prerelease
rule. Build metadata is ignored. -/
def compareVersions (a b : Version) : Ordering :=
  (compare a.major b.major).then
    ((compare a.minor b.minor).then
      ((compare a.patch b.patch).then (cmpPre a.pre b.pre)))

/-- npm `semver.gte(a, b)`: parse both and test `compare(a, b) >= 0`;
throws (modelled as `Except.error ()`) when either string is not a valid
semantic version. -/
def semverGte (a b : String) : Except Unit Bool :=
  match parseVersion a, parseVersion b with
  | some va, some vb => Except.ok (decide (compareVersions va vb ≠ Ordering.lt))
  | _, _ => Except.error ()

end Semver

/-- One entry of the `networks` map (`networks[chain][network]`): a record
of display data for a network. The selector layer only reads its
`explorerUrls` map (explorer name to url); `none` models the field being
absent (`undefined`). -/
structure NetworkEntry where
  explorerUrls : Option (List (String × String))
deriving Repr, DecidableEq

/-- One entry of the `chains` map (`chains[chain]`); the selector layer
reads its `name` field. -/
structure ChainEntry where
  name : Option String
deriving Repr, DecidableEq

/-- The `state.info.data` record returned by lnd `getInfo`, with the fields
the selectors read. A wholly absent `data` object behaves, through
`lodash/get`, exactly like one whose fields are all `undefined`. -/
structure InfoData where
  syncedToChain : Option Bool
  version : JsStr
  identity_pubkey : JsStr
  uris : JsArr
  grpcProtoVersion : JsStr
deriving Repr, DecidableEq

/-- The `state.info` slice. `chains` and `networks` are association maps;
`none` models them being `undefined` (or `null`, which the `lodash/get`
accesses treat identically). Chain and network names are dot-free, so the
two-level lookup coincides with the dotted-path `lodash/get`. -/
structure InfoState where
  chain : JsStr
  chains : Option (List (String × ChainEntry))
  network : JsStr
  networks : Option (List (String × List (String × NetworkEntry)))
  infoLoading : Bool
  infoLoaded : Bool
  hasSynced : Option Bool
  data : InfoData
deriving Repr, DecidableEq

/-- A raw invoice record as it sits in `state.invoice.invoices`.
Modelled from the spec: the reducer and `decorateInvoice` helper of
`reducers/invoice` are not part of the sources at hand; the spec describes
an Invoice as a lightning payment request record with amount, memo, and
settlement status. -/
structure RawInvoice where
  paymentRequest : String
  amount : Int
  memo : String
  settled : Bool
deriving Repr, DecidableEq

/-- A decorated invoice, the element type of the `invoices` selector.
Modelled from the spec: decoration resolves the record into display form,
carrying the payment request, a final amount, the memo, and the settlement
status. -/
structure Invoice where
  paymentRequest : String
  finalAmount : Int
  memo : String
  isSettled : Bool
deriving Repr, DecidableEq

/-- Modelled from the spec: `decorateInvoice` (from `reducers/invoice`
utils, not among the sources at hand) decorates one raw invoice record
into its display form. -/
def decorateInvoice (r : RawInvoice) : Invoice :=
  { paymentRequest := r.paymentRequest
    finalAmount := r.amount
    memo := r.memo
    isSettled := r.settled }

/-- The `state.invoice` slice: the raw invoice list and the currently
selected payment request (a string or `null`). -/
structure InvoiceState where
  invoices : List RawInvoice
  invoice : JsStr
deriving Repr, DecidableEq

/-- The current settings configuration object.
Modelled from the spec: `settingsSelectors.currentConfig` (from
`reducers/settings`, not among the sources at hand) returns the active
configuration; `networkInfo` reads its `blockExplorer` key. -/
structure SettingsConfig where
  blockExplorer : String
deriving Repr, DecidableEq

/-- The `state.settings` slice, holding the current configuration. -/
structure SettingsState where
  currentConfig : SettingsConfig
deriving Repr, DecidableEq

/-- The Redux state snapshot, restricted to the slices the embedded
selectors read. -/
structure State where
  info : InfoState
  invoice : InvoiceState
  settings : SettingsState
deriving Repr, DecidableEq

/-- Modelled from the spec: `settingsSelectors.currentConfig` reads the
current settings configuration from the state. -/
def currentConfig (st : State) : SettingsConfig := st.settings.currentConfig

/-- Selector `chainSelector`: `state.info.chain`. -/
def chainSelector (st : State) : JsStr := st.info.chain

/-- Selector `chainsSelector`: `state.info.chains`. -/
def chainsSelector (st : State) : Option (List (String × ChainEntry)) := st.info.chains

/-- Selector `networkSelector`: `state.info.network`. -/
def networkSelector (st : State) : JsStr := st.info.network

/-- Selector `networksSelector`: `state.info.networks`. -/
def networksSelector (st : State) : Option (List (String × List (String × NetworkEntry))) :=
  st.info.networks

/-- Selector `infoLoading`: `state.info.infoLoading`. -/
def infoLoading (st : State) : Bool := st.info.infoLoading

/-- Selector `infoLoaded`: `state.info.infoLoaded`. -/
def infoLoaded (st : State) : Bool := st.info.infoLoaded

/-- Selector `hasSynced`: `state.info.hasSynced`. -/
def hasSynced (st : State) : Option Bool := st.info.hasSynced

/-- Selector `isSyncedToChain`:
`get(state, 'info.data.syncedToChain', false)`. -/
def isSyncedToChain (st : State) : Bool := (st.info.data.syncedToChain).getD false

/-- Selector `version`: `get(state, 'info.data.version')`. -/
def version (st : State) : JsStr := st.info.data.version

/-- Selector `identityPubkey`: `get(state, 'info.data.identity_pubkey')`. -/
def identityPubkey (st : State) : JsStr := st.info.data.identity_pubkey

/-- Selector `nodeUris`: `get(state, 'info.data.uris')`. -/
def nodeUris (st : State) : JsArr := st.info.data.uris

/-- Selector `grpcProtoVersion`:
`get(state, 'info.data.grpcProtoVersion')`. -/
def grpcProtoVersion (st : State) : JsStr := st.info.data.grpcProtoVersion

/-- Selector `versionString`: `v && v.split(' ')[0]`. A falsy version
(`undefined`, `null`, `""`) is returned unchanged; otherwise the text
before the first space character. -/
def versionString (st : State) : JsStr :=
  match version st with
  | JsStr.str v =>
    if v = "" then JsStr.str ""
    else JsStr.str (String.mk ((Semver.splitOnChar ' ' v.data).headD []))
  | other => other

/-- Remove `pat` from the front of a character list, returning the
remainder, or `none` when `pat` is not a prefix. -/
def stripPrefixChars : List Char → List Char → Option (List Char)
  | [], rest => some rest
  | _ :: _, [] => none
  | p :: ps, c :: cs => if c = p then stripPrefixChars ps cs else none

/-- Model of JavaScript `c.replace(pat, '')` with a plain-string pattern:
only the first occurrence of `pat` is removed. -/
def removeFirstOccurrence (pat : List Char) : List Char → List Char
  | [] => []
  | c :: cs =>
    match stripPrefixChars pat (c :: cs) with
    | some rest => rest
    | none => c :: removeFirstOccurrence pat cs

/-- Selector `commitString`: `undefined` for a falsy version, else the
second space-separated component with the first occurrence of `commit=`
removed; `undefined` when that component is missing or empty. -/
def commitString (st : State) : Option String :=
  match version st with
  | JsStr.str v =>
    if v = "" then none
    else
      match (Semver.splitOnChar ' ' v.data).drop 1 with
      | [] => none
      | c :: _ =>
        if c = [] then none
        else some (String.mk (removeFirstOccurrence "commit=".data c))
  | _ => none

/-- Selector `hasRouterSupport`: `false` for a falsy `grpcProtoVersion`,
otherwise `semver.gte(v, '0.7.1-beta', { includePrerelease: true })`
(the option object leaves `loose` false and does not affect `gte`). -/
def hasRouterSupport (st : State) : Except Unit Bool :=
  match grpcProtoVersion st with
  | JsStr.str v => if v = "" then Except.ok false else Semver.semverGte v "0.7.1-beta"
  | _ => Except.ok false

/-- Selector `hasSendPaymentV2Support`: `false` for a falsy
`grpcProtoVersion`, otherwise `semver.gte(v, '0.10.0-beta', ...)`. -/
def hasSendPaymentV2Support (st : State) : Except Unit Bool :=
  match grpcProtoVersion st with
  | JsStr.str v => if v = "" then Except.ok false else Semver.semverGte v "0.10.0-beta"
  | _ => Except.ok false

/-- Selector `hasMppSupport`: `false` for a falsy `grpcProtoVersion`,
otherwise `semver.gte(v, '0.10.0-beta', ...)`. -/
def hasMppSupport (st : State) : Except Unit Bool :=
  match grpcProtoVersion st with
  | JsStr.str v => if v = "" then Except.ok false else Semver.semverGte v "0.10.0-beta"
  | _ => Except.ok false

/-- Model of `u.split('@')[0]`: the text before the first `@` (the whole
string when there is none). -/
def beforeAt (u : String) : String :=
  String.mk (u.data.takeWhile (fun c => c != '@'))

/-- Selector `nodePubkey`: `pk || (n && n[0].split('@')[0])`. A truthy
`identity_pubkey` is returned as is. Otherwise, when `uris` is an array it
is truthy even when empty, and `n[0].split` on the empty array throws a
`TypeError` (modelled `Except.error ()`); on a nonempty array the part of
the first uri before `@` is returned. When `uris` is `undefined`/`null`
that falsy value itself is the result of the `||` chain. -/
def nodePubkey (st : State) : Except Unit JsStr :=
  let pk := identityPubkey st
  if pk.truthy then Except.ok pk
  else
    match nodeUris st with
    | JsArr.arr [] => Except.error ()
    | JsArr.arr (u :: _) => Except.ok (JsStr.str (beforeAt u))
    | JsArr.undef => Except.ok JsStr.undef
    | JsArr.null => Except.ok JsStr.null

/-- Result type of `nodeUrisOrPubkey`: either the uris array or the
one-element array holding the `nodePubkey` value. -/
inductive UrisOrPk
  | uris (l : List String)
  | pkList (pk : JsStr)
deriving Repr, DecidableEq

/-- Selector `nodeUrisOrPubkey`: `uris || [pk]`. Both input selectors are
evaluated first, so a throw inside `nodePubkey` propagates. -/
def nodeUrisOrPubkey (st : State) : Except Unit UrisOrPk :=
  match nodePubkey st with
  | Except.error e => Except.error e
  | Except.ok pk =>
    match nodeUris st with
    | JsArr.arr l => Except.ok (UrisOrPk.uris l)
    | _ => Except.ok (UrisOrPk.pkList pk)

/-- Lookup of `networks[chain][network]` as performed by
`get(networks, templatePath, {})` on the dotted template path; `none` is
the missing-entry case, in which the `get` default `{}` applies. -/
def networkLookup (networks : Option (List (String × List (String × NetworkEntry))))
    (chain network : JsStr) : Option NetworkEntry :=
  match networks with
  | none => none
  | some l =>
    match List.lookup chain.pathKey l with
    | none => none
    | some m => List.lookup network.pathKey m

/-- Result of `networkInfo`: the spread of the found entry together with
the computed `explorerUrl` (`undefined` when the explorer key is absent
from the entry's `explorerUrls` map). -/
structure NetworkInfoResult where
  info : NetworkEntry
  explorerUrl : Option String
deriving Repr, DecidableEq

/-- Selector `networkInfo`: looks up `networks[chain][network]` with
default `{}`, then builds `{ ...info, explorerUrl:
info.explorerUrls[currentConfig.blockExplorer] }`. When the entry is
missing (or has no `explorerUrls` field), `info.explorerUrls` is
`undefined` and indexing it throws a `TypeError`, modelled
`Except.error ()`. -/
def networkInfo (st : State) : Except Unit NetworkInfoResult :=
  let info := (networkLookup st.info.networks st.info.chain st.info.network).getD
    { explorerUrls := none }
  match info.explorerUrls with
  | none => Except.error ()
  | some urls =>
    Except.ok { info := info, explorerUrl := List.lookup (currentConfig st).blockExplorer urls }

/-- Selector `chainName`: `get(chains, templatePath(chain, 'name'), null)`. -/
def chainName (st : State) : JsStr :=
  match st.info.chains with
  | none => JsStr.null
  | some l =>
    match List.lookup (st.info.chain.pathKey) l with
    | none => JsStr.null
    | some e =>
      match e.name with
      | none => JsStr.null
      | some n => JsStr.str n

/-- Input selector `invoicesSelector`: `state.invoice.invoices`. -/
def invoicesSelector (st : State) : List RawInvoice := st.invoice.invoices

/-- Input selector `invoiceSelector`: `state.invoice.invoice`, the
currently selected payment request (string or `null`). -/
def invoiceSelector (st : State) : JsStr := st.invoice.invoice

/-- Selector `invoices`: `item.map(decorateInvoice)` over the raw list. -/
def invoices (st : State) : List Invoice :=
  (invoicesSelector st).map decorateInvoice

/-- JavaScript strict equality `a === b` between a string field and a
string-or-null selector value: false against `undefined`/`null`. -/
def strictEq (a : String) (b : JsStr) : Bool :=
  match b with
  | JsStr.str t => a == t
  | _ => false

/-- Selector `invoice`:
`allInvoices.find(item => item.paymentRequest === paymentRequest)`,
`none` modelling the `undefined` that `find` returns without a match. -/
def invoice (st : State) : Option Invoice :=
  (invoices st).find? (fun item => strictEq item.paymentRequest (invoiceSelector st))

/-- The `invoice` prop of `RequestSummary` (default `{}`, making
`finalAmount` `undefined`), restricted to the fields the amount
computation reads. -/
structure InvoiceProp where
  finalAmount : JsNum
  isSettled : Bool
deriving Repr, DecidableEq

/-- The result of `decodePayReq(payReq)` (`{}` when `payReq` is absent),
restricted to the `satoshis` field the amount computation reads. -/
structure DecodedPayReq where
  satoshis : JsNum
deriving Repr, DecidableEq

/-- The amount displayed by `RequestSummary`:
`invoice.finalAmount || invoiceAmount || 0`, where `invoiceAmount` is
`decodedInvoice.satoshis`. -/
def requestSummarySatoshis (inv : InvoiceProp) (decoded : DecodedPayReq) : Int :=
  if inv.finalAmount.truthy then inv.finalAmount.valueOr 0
  else if decoded.satoshis.truthy then decoded.satoshis.valueOr 0
  else 0

/-- The tuple of every selector exported by the info selectors module
except `networkInfo` (which additionally reads the settings slice),
as a single function of the info slice contents. -/
def allInfoSelectors (st : State) :=
  (chainSelector st, chainsSelector st, networkSelector st, networksSelector st,
   infoLoading st, infoLoaded st, hasSynced st, isSyncedToChain st, version st,
   identityPubkey st, nodeUris st, grpcProtoVersion st, versionString st,
   commitString st, hasRouterSupport st, hasSendPaymentV2Support st, hasMppSupport st,
   nodePubkey st, nodeUrisOrPubkey st, chainName st)

/-- The tuple of every exported selector of both selector modules. -/
def allSelectors (st : State) :=
  (allInfoSelectors st, networkInfo st, invoices st, invoice st)

/-- An `info.data` record with every field missing (`undefined`). -/
def emptyData : InfoData :=
  { syncedToChain := none
    version := JsStr.undef
    identity_pubkey := JsStr.undef
    uris := JsArr.undef
    grpcProtoVersion := JsStr.undef }

/-- A settings slice whose configured block explorer is blockstream. -/
def sampleSettings : SettingsState :=
  { currentConfig := { blockExplorer := "blockstream" } }

/-- A state whose info and invoice slices are empty: nothing loaded yet. -/
def emptyState : State :=
  { info :=
    { chain := JsStr.undef
      chains := none
      network := JsStr.undef
      networks := none
      infoLoading := false
      infoLoaded := false
      hasSynced := none
      data := emptyData }
    invoice := { invoices := [], invoice := JsStr.null }
    settings := sampleSettings }

/-- The first raw invoice of the sample state. -/
def rawInvoiceOne : RawInvoice :=
  { paymentRequest := "lnbc1", amount := 100, memo := "coffee", settled := false }

/-- The second raw invoice of the sample state. -/
def rawInvoiceTwo : RawInvoice :=
  { paymentRequest := "lnbc2", amount := 250, memo := "tea", settled := true }

/-- The explorer-url map of the sample network entry. -/
def sampleExplorerUrls : List (String × String) :=
  [("blockstream", "https://blockstream.info"), ("smartbit", "https://www.smartbit.com.au")]

/-- The networks map of the sample state: one bitcoin mainnet entry. -/
def sampleNetworks : List (String × List (String × NetworkEntry)) :=
  [("bitcoin", [("mainnet", { explorerUrls := some sampleExplorerUrls })])]

/-- A fully populated state: synced bitcoin mainnet node with two invoices,
the second being selected. -/
def sampleState : State :=
  { info :=
    { chain := JsStr.str "bitcoin"
      chains := some [("bitcoin", { name := some "Bitcoin" })]
      network := JsStr.str "mainnet"
      networks := some sampleNetworks
      infoLoading := false
      infoLoaded := true
      hasSynced := some true
      data :=
      { syncedToChain := some true
        version := JsStr.str "0.10.0-beta commit=v0.10.0-beta-9-g123"
        identity_pubkey := JsStr.str "pubkey123"
        uris := JsArr.arr ["pubkey123@1.2.3.4:9735"]
        grpcProtoVersion := JsStr.str "0.10.0-beta" } }
    invoice :=
    { invoices := [rawInvoiceOne, rawInvoiceTwo]
      invoice := JsStr.str "lnbc2" }
    settings := sampleSettings }

/-- A state with no identity pubkey whose only node uri carries the pubkey
before the `@`. -/
def uriOnlyState : State :=
  { info :=
    { chain := JsStr.undef
      chains := none
      network := JsStr.undef
      networks := none
      infoLoading := false
      infoLoaded := true
      hasSynced := none
      data :=
      { syncedToChain := none
        version := JsStr.undef
        identity_pubkey := JsStr.undef
        uris := JsArr.arr ["abcdef@host:9735"]
        grpcProtoVersion := JsStr.undef } }
    invoice := { invoices := [], invoice := JsStr.null }
    settings := sampleSettings }

/-- A state whose networks map is present but has no entry for the current
chain and network. -/
def missingNetworkState : State :=
  { info :=
    { chain := JsStr.str "bitcoin"
      chains := none
      network := JsStr.str "mainnet"
      networks := some []
      infoLoading := false
      infoLoaded := true
      hasSynced := none
      data := emptyData }
    invoice := { invoices := [], invoice := JsStr.null }
    settings := sampleSettings }

/-- A state with no identity pubkey and a present but empty uris array. -/
def emptyUrisState : State :=
  { info :=
    { chain := JsStr.undef
      chains := none
      network := JsStr.undef
      networks := none
      infoLoading := false
      infoLoaded := true
      hasSynced := none
      data :=
      { syncedToChain := none
        version := JsStr.undef
        identity_pubkey := JsStr.undef
        uris := JsArr.arr []
        grpcProtoVersion := JsStr.undef } }
    invoice := { invoices := [], invoice := JsStr.null }
    settings := sampleSettings }

/-- A state with no identity pubkey whose uris field is `null`. -/
def nullUrisState : State :=
  { info :=
    { chain := JsStr.undef
      chains := none
      network := JsStr.undef
      networks := none
      infoLoading := false
      infoLoaded := true
      hasSynced := none
      data :=
      { syncedToChain := none
        version := JsStr.undef
        identity_pubkey := JsStr.undef
        uris := JsArr.null
        grpcProtoVersion := JsStr.undef } }
    invoice := { invoices := [], invoice := JsStr.null }
    settings := sampleSettings }

/-- A state with a nonempty invoice list but a `null` selected payment
request. -/
def nullSelectionState : State :=
  { info :=
    { chain := JsStr.undef
      chains := none
      network := JsStr.undef
      networks := none
      infoLoading := false
      infoLoaded := true
      hasSynced := none
      data := emptyData }
    invoice := { invoices := [rawInvoiceOne], invoice := JsStr.null }
    settings := sampleSettings }

/-- A state whose node version string separates its two tokens with a tab
rather than a space. -/
def tabVersionState : State :=
  { info :=
    { chain := JsStr.undef
      chains := none
      network := JsStr.undef
      networks := none
      infoLoading := false
      infoLoaded := true
      hasSynced := none
      data :=
      { syncedToChain := none
        version := JsStr.str "1.0.0\tx y"
        identity_pubkey := JsStr.undef
        uris := JsArr.undef
        grpcProtoVersion := JsStr.undef } }
    invoice := { invoices := [], invoice := JsStr.null }
    settings := sampleSettings }

/-- A state whose node version's second token contains `commit=` in the
middle rather than as a leading prefix. -/
def midCommitState : State :=
  { info :=
    { chain := JsStr.undef
      chains := none
      network := JsStr.undef
      networks := none
      infoLoading := false
      infoLoaded := true
      hasSynced := none
      data :=
      { syncedToChain := none
        version := JsStr.str "1.0.0 xcommit=y"
        identity_pubkey := JsStr.undef
        uris := JsArr.undef
        grpcProtoVersion := JsStr.undef } }
    invoice := { invoices := [], invoice := JsStr.null }
    settings := sampleSettings }

/-- Whitespace characters relevant to the version strings at hand. -/
def isSpaceLike (c : Char) : Bool := c = ' ' || c = '\t' || c = '\n' || c = '\r'

/-- Reading of the claim wording for `versionString`: the first
*whitespace*-separated token of the version string. -/
def claimVersionString (st : State) : JsStr :=
  match version st with
  | JsStr.str v =>
    if v = "" then JsStr.str ""
    else JsStr.str (String.mk ((v.data.dropWhile isSpaceLike).takeWhile (fun c => !(isSpaceLike c))))
  | other => other

/-- Reading of the claim wording for `commitString`: the second
whitespace-separated token with a *leading* `commit=` prefix removed. -/
def claimCommitString (st : State) : Option String :=
  match version st with
  | JsStr.str v =>
    if v = "" then none
    else
      let afterFirst :=
        ((v.data.dropWhile isSpaceLike).dropWhile (fun c => !(isSpaceLike c))).dropWhile isSpaceLike
      let tok := afterFirst.takeWhile (fun c => !(isSpaceLike c))
      if tok = [] then none
      else some (String.mk ((stripPrefixChars "commit=".data tok).getD tok))
  | _ => none

/-- Amended wording for `versionString`: the text before the first *space*
character of the version (the version value itself when falsy). -/
def amendedVersionString (st : State) : JsStr :=
  match version st with
  | JsStr.str v =>
    if v = "" then JsStr.str ""
    else JsStr.str (String.mk (v.data.takeWhile (fun c => c != ' ')))
  | other => other

/-- Amended wording for `commitString`: `undefined` when the version is
falsy or there is no nonempty second space-separated token, otherwise that
token with the *first occurrence* of `commit=` (anywhere in it) removed. -/
def amendedCommitString (st : State) : Option String :=
  match version st with
  | JsStr.str v =>
    if v = "" then none
    else
      match v.data.dropWhile (fun c => c != ' ') with
      | [] => none
      | _ :: rest =>
        let tok := rest.takeWhile (fun c => c != ' ')
        if tok = [] then none
        else some (String.mk (removeFirstOccurrence "commit=".data tok))
  | _ => none

example : Semver.semverGte "0.10.0-beta" "0.7.1-beta" = Except.ok true := by decide
example : Semver.semverGte "0.7.1-beta" "0.7.1-beta" = Except.ok true := by decide
example : Semver.semverGte "0.7.0" "0.7.1-beta" = Except.ok false := by decide
example : Semver.semverGte "0.7.1" "0.7.1-beta" = Except.ok true := by decide
example : Semver.semverGte "0.10.0-beta" "0.10.0" = Except.ok false := by decide
example : Semver.semverGte "0.9.9-beta" "0.10.0-beta" = Except.ok false := by decide
example : Semver.semverGte "v0.8.0" "0.7.1-beta" = Except.ok true := by decide
example : Semver.semverGte "garbage" "0.7.1-beta" = Except.error () := by decide
example : Semver.semverGte "0.10.0-alpha.2" "0.10.0-alpha.10" = Except.ok false := by decide
example : Semver.semverGte "0.10.0-beta.3" "0.10.0-alpha.9" = Except.ok true := by decide
example : Semver.parseVersion "1.02.3" = none := by decide
example : Semver.parseVersion "1.2.3-01" = none := by decide
example : versionString sampleState = JsStr.str "0.10.0-beta" := by decide
example : commitString sampleState = some "v0.10.0-beta-9-g123" := by decide
example : networkInfo sampleState = Except.ok
  { info := { explorerUrls := some sampleExplorerUrls }
    explorerUrl := some "https://blockstream.info" } := by decide
example : chainName sampleState = JsStr.str "Bitcoin" := by decide
example : nodePubkey emptyState = Except.ok JsStr.undef := by decide
example : nodeUrisOrPubkey uriOnlyState = Except.ok (UrisOrPk.uris ["abcdef@host:9735"]) := by decide
example : nodeUrisOrPubkey emptyUrisState = Except.error () := by decide

/-- C2: for every state in which `grpcProtoVersion` is present (a nonempty
string), each capability flag equals the semver greater-or-equal
comparison of that version string against its fixed threshold:
`hasRouterSupport` against `0.7.1-beta`, `hasSendPaymentV2Support` and
`hasMppSupport` against `0.10.0-beta`, prerelease versions taking part in
the comparison. -/
theorem capability_flags_are_semver_threshold_checks (st : State) (v : String)
    (hpresent : grpcProtoVersion st = JsStr.str v) (hne : v ≠ "") :
    hasRouterSupport st = Semver.semverGte v "0.7.1-beta" ∧
    hasSendPaymentV2Support st = Semver.semverGte v "0.10.0-beta" ∧
    hasMppSupport st = Semver.semverGte v "0.10.0-beta" := by
  refine ⟨?_, ?_, ?_⟩ <;>
    simp [hasRouterSupport, hasSendPaymentV2Support, hasMppSupport, hpresent, hne]

/-- C2 witness: the sample state reports proto version `0.10.0-beta`, so
all three flags are the corresponding threshold comparisons, and both
thresholds are met there. -/
theorem capability_flags_are_semver_threshold_checks_witness :
    (hasRouterSupport sampleState = Semver.semverGte "0.10.0-beta" "0.7.1-beta" ∧
     hasSendPaymentV2Support sampleState = Semver.semverGte "0.10.0-beta" "0.10.0-beta" ∧
     hasMppSupport sampleState = Semver.semverGte "0.10.0-beta" "0.10.0-beta") ∧
    hasRouterSupport sampleState = Except.ok true ∧
    hasSendPaymentV2Support sampleState = Except.ok true :=
  ⟨capability_flags_are_semver_threshold_checks sampleState "0.10.0-beta" rfl (by decide),
   by decide, by decide⟩

/-- C3: for every state in which `grpcProtoVersion` is absent (`undefined`,
`null` or the empty string), `hasRouterSupport` returns `false`. -/
theorem hasRouterSupport_false_without_version (st : State)
    (h : grpcProtoVersion st = JsStr.undef ∨ grpcProtoVersion st = JsStr.null ∨
      grpcProtoVersion st = JsStr.str "") :
    hasRouterSupport st = Except.ok false := by
  rcases h with h | h | h <;> simp [hasRouterSupport, h]

/-- C3 witness: the empty state has no `grpcProtoVersion`, and
`hasRouterSupport` returns `false` there. -/
theorem hasRouterSupport_false_without_version_witness :
    hasRouterSupport emptyState = Except.ok false :=
  hasRouterSupport_false_without_version emptyState (Or.inl rfl)

/-- C8: `hasMppSupport` and `hasSendPaymentV2Support` are extensionally
equal: both compare `grpcProtoVersion` against the identical threshold
`0.10.0-beta` and are `false` when it is absent. -/
theorem hasMppSupport_eq_hasSendPaymentV2Support (st : State) :
    hasMppSupport st = hasSendPaymentV2Support st := rfl

/-- C8 witness: the two selectors agree on the sample state. -/
theorem hasMppSupport_eq_hasSendPaymentV2Support_witness :
    hasMppSupport sampleState = hasSendPaymentV2Support sampleState :=
  hasMppSupport_eq_hasSendPaymentV2Support sampleState

/-- C4: `nodePubkey` returns a truthy `identity_pubkey` unchanged, and
otherwise, when the uris list is present and nonempty, the part of the
first uri before the first `@`. -/
theorem nodePubkey_resolution (st : State) :
    ((identityPubkey st).truthy = true → nodePubkey st = Except.ok (identityPubkey st)) ∧
    ((identityPubkey st).truthy = false → ∀ u rest, nodeUris st = JsArr.arr (u :: rest) →
      nodePubkey st = Except.ok (JsStr.str (beforeAt u))) := by
  constructor
  · intro h
    simp [nodePubkey, h]
  · intro h u rest hu
    simp [nodePubkey, h, hu]

/-- C4 witness: the sample state has an identity pubkey and gets it back
unchanged; the uri-only state extracts the pubkey before the `@`. -/
theorem nodePubkey_resolution_witness :
    nodePubkey sampleState = Except.ok (JsStr.str "pubkey123") ∧
    nodePubkey uriOnlyState = Except.ok (JsStr.str "abcdef") := by
  constructor
  · have h := (nodePubkey_resolution sampleState).1 (by decide)
    rw [h]
    decide
  · have h := (nodePubkey_resolution uriOnlyState).2 (by decide) "abcdef@host:9735" [] (by decide)
    rw [h]
    decide

/-- C9: the amount displayed by `RequestSummary` is `finalAmount` when
that is truthy, else the decoded `satoshis` when truthy, else `0`; a
`finalAmount` of `0` is falsy and falls through to the decoded amount. -/
theorem requestSummary_amount_fallback (inv : InvoiceProp) (decoded : DecodedPayReq) :
    (∀ n : Int, n ≠ 0 → inv.finalAmount = JsNum.num n →
      requestSummarySatoshis inv decoded = n) ∧
    (inv.finalAmount.truthy = false → ∀ m : Int, m ≠ 0 → decoded.satoshis = JsNum.num m →
      requestSummarySatoshis inv decoded = m) ∧
    (inv.finalAmount.truthy = false → decoded.satoshis.truthy = false →
      requestSummarySatoshis inv decoded = 0) ∧
    (inv.finalAmount = JsNum.num 0 →
      requestSummarySatoshis inv decoded =
        requestSummarySatoshis { finalAmount := JsNum.undef, isSettled := inv.isSettled } decoded) := by
  refine ⟨?_, ?_, ?_, ?_⟩
  · intro n hn h
    simp [requestSummarySatoshis, JsNum.truthy, JsNum.valueOr, h, hn]
  · intro h m hm hsat
    unfold requestSummarySatoshis
    rw [h, hsat]
    simp [JsNum.truthy, JsNum.valueOr, hm]
  · intro h hsat
    simp [requestSummarySatoshis, h, hsat]
  · intro h
    simp [requestSummarySatoshis, JsNum.truthy, h]

/-- C9 witness: a zero `finalAmount` falls through to the decoded amount,
a nonzero one wins, and with both falsy the display is `0`. -/
theorem requestSummary_amount_fallback_witness :
    requestSummarySatoshis { finalAmount := JsNum.num 0, isSettled := false }
      { satoshis := JsNum.num 42 } = 42 ∧
    requestSummarySatoshis { finalAmount := JsNum.num 7, isSettled := false }
      { satoshis := JsNum.num 42 } = 7 ∧
    requestSummarySatoshis { finalAmount := JsNum.num 0, isSettled := false }
      { satoshis := JsNum.undef } = 0 :=
  ⟨(requestSummary_amount_fallback _ _).2.1 (by decide) 42 (by decide) rfl,
   (requestSummary_amount_fallback _ _).1 7 (by decide) rfl,
   (requestSummary_amount_fallback _ _).2.2.1 (by decide) (by decide)⟩

/-- C7: the `invoices` selector is the element-wise map of
`decorateInvoice` over the raw list: same length, and the i-th element is
the decoration of the i-th raw invoice, in order. -/
theorem invoices_is_elementwise_map (st : State) :
    (invoices st).length = (invoicesSelector st).length ∧
    ∀ i : Nat, (invoices st).get? i = ((invoicesSelector st).get? i).map decorateInvoice := by
  constructor
  · simp [invoices]
  · intro i
    simp [invoices, List.get?_eq_getElem?, List.getElem?_map]

/-- C7 witness: on the sample state the decorated list has the length of
the raw list and decorates its second element in place. -/
theorem invoices_is_elementwise_map_witness :
    (invoices sampleState).length = (invoicesSelector sampleState).length ∧
    (invoices sampleState).get? 1 = some (decorateInvoice rawInvoiceTwo) := by
  refine ⟨(invoices_is_elementwise_map sampleState).1, ?_⟩
  rw [(invoices_is_elementwise_map sampleState).2 1]
  rfl

/-- Helper: `find?` returns the first element satisfying the predicate
when everything before it fails the predicate. -/
theorem find_first_match {α : Type} (p : α → Bool) (pre : List α) (x : α) (post : List α)
    (hx : p x = true) (hpre : ∀ y ∈ pre, p y = false) :
    (pre ++ x :: post).find? p = some x := by
  induction pre with
  | nil => simp [List.find?, hx]
  | cons a as ih =>
    have ha : p a = false := hpre a (by simp)
    have hrest : ∀ y ∈ as, p y = false := fun y hy => hpre y (by simp [hy])
    simpa [List.find?, ha] using ih hrest

/-- C6: the `invoice` selector returns the first decorated invoice whose
`paymentRequest` is strictly equal to the selected payment request, and
`undefined` (`none`) when no decorated invoice matches. -/
theorem invoice_finds_first_matching_request (st : State) :
    (∀ pre x post, invoices st = pre ++ x :: post →
      strictEq x.paymentRequest (invoiceSelector st) = true →
      (∀ y ∈ pre, strictEq y.paymentRequest (invoiceSelector st) = false) →
      invoice st = some x) ∧
    ((∀ y ∈ invoices st, strictEq y.paymentRequest (invoiceSelector st) = false) →
      invoice st = none) := by
  constructor
  · intro pre x post hsplit hx hpre
    unfold invoice
    rw [hsplit]
    exact find_first_match _ pre x post hx hpre
  · intro hall
    unfold invoice
    exact List.find?_eq_none.mpr (fun y hy => by simp [hall y hy])

/-- C6 witness: in the sample state the selected request `lnbc2` picks the
second decorated invoice (the first fails the predicate), and the empty
state yields no match. -/
theorem invoice_finds_first_matching_request_witness :
    invoice sampleState = some (decorateInvoice rawInvoiceTwo) ∧
    invoice emptyState = none :=
  ⟨(invoice_finds_first_matching_request sampleState).1
      [decorateInvoice rawInvoiceOne] (decorateInvoice rawInvoiceTwo) []
      (by decide) (by decide) (by decide),
   (invoice_finds_first_matching_request emptyState).2 (by decide)⟩

/-- C5: every exported selector is a pure function of the state snapshot:
the info-module selectors depend only on the info slice, `networkInfo`
only on the info and settings slices, the invoice selectors only on the
invoice slice, and equal snapshots give equal results throughout. -/
theorem selectors_pure_and_slice_local :
    (∀ s t : State, s.info = t.info → allInfoSelectors s = allInfoSelectors t) ∧
    (∀ s t : State, s.info = t.info → s.settings = t.settings →
      networkInfo s = networkInfo t) ∧
    (∀ s t : State, s.invoice = t.invoice →
      invoices s = invoices t ∧ invoice s = invoice t) ∧
    (∀ s t : State, s = t → allSelectors s = allSelectors t) := by
  refine ⟨?_, ?_, ?_, ?_⟩
  · intro s t h
    simp only [allInfoSelectors, chainSelector, chainsSelector, networkSelector,
      networksSelector, infoLoading, infoLoaded, hasSynced, isSyncedToChain, version,
      identityPubkey, nodeUris, grpcProtoVersion, versionString, commitString,
      hasRouterSupport, hasSendPaymentV2Support, hasMppSupport, nodePubkey,
      nodeUrisOrPubkey, chainName, h]
  · intro s t h1 h2
    simp only [networkInfo, networkLookup, currentConfig, h1, h2]
  · intro s t h
    constructor
    · simp only [invoices, invoicesSelector, h]
    · simp only [invoice, invoices, invoicesSelector, invoiceSelector, h]
  · intro s t h
    rw [h]

/-- C5 witness: the determinism statements instantiated on concrete
snapshots. -/
theorem selectors_pure_and_slice_local_witness :
    allSelectors sampleState = allSelectors sampleState ∧
    allInfoSelectors emptyState = allInfoSelectors emptyState :=
  ⟨selectors_pure_and_slice_local.2.2.2 sampleState sampleState rfl,
   selectors_pure_and_slice_local.1 emptyState emptyState rfl⟩

/-- C1 counterexample: three exported selectors do throw on missing or
empty fields. With a networks map that has no entry for the current chain
and network, `networkInfo` reads `explorerUrls` of the `{}` default and
throws a `TypeError`; with no `identity_pubkey` and a present but empty
`uris` array (an empty array is truthy), `nodePubkey` calls `split` on
`undefined` and throws a `TypeError`; and `nodeUrisOrPubkey` evaluates
`nodePubkey` as a `createSelector` input, so the same state makes it throw
as well, even though its own combiner would return the empty array. -/
theorem defensive_defaulting_counterexample :
    networkInfo missingNetworkState = Except.error () ∧
    nodePubkey emptyUrisState = Except.error () ∧
    nodeUrisOrPubkey emptyUrisState = Except.error () := by
  refine ⟨?_, ?_, ?_⟩ <;> decide

/-- C1 amended: every exported selector of both modules handles missing or
empty fields by defensive defaulting, except `networkInfo`, `nodePubkey`
and `nodeUrisOrPubkey`: `networkInfo` throws whenever the networks map has
no entry for the current chain and network; `nodePubkey` throws when
`identity_pubkey` is falsy and the uris list is present but empty (with
the uris list absent it returns the falsy value itself); and
`nodeUrisOrPubkey` propagates any `nodePubkey` throw because
`createSelector` evaluates its input selectors first. The conjuncts cover
all 21 info-module exports and both invoice-module exports; `infoLoading`
and `infoLoaded` are reducer-initialized Booleans with no absent case and
are returned unchanged. -/
theorem selectors_default_except_throwing_cases :
    (∀ st : State, st.info.chain = JsStr.undef → chainSelector st = JsStr.undef) ∧
    (∀ st : State, st.info.chains = none → chainsSelector st = none) ∧
    (∀ st : State, st.info.network = JsStr.undef → networkSelector st = JsStr.undef) ∧
    (∀ st : State, st.info.networks = none → networksSelector st = none) ∧
    (∀ st : State, infoLoading st = st.info.infoLoading) ∧
    (∀ st : State, infoLoaded st = st.info.infoLoaded) ∧
    (∀ st : State, st.info.hasSynced = none → hasSynced st = none) ∧
    (∀ st : State, st.info.data.syncedToChain = none → isSyncedToChain st = false) ∧
    (∀ st : State, st.info.data.version = JsStr.undef → version st = JsStr.undef) ∧
    (∀ st : State, st.info.data.identity_pubkey = JsStr.undef →
      identityPubkey st = JsStr.undef) ∧
    (∀ st : State, st.info.data.uris = JsArr.undef → nodeUris st = JsArr.undef) ∧
    (∀ st : State, st.info.data.grpcProtoVersion = JsStr.undef →
      grpcProtoVersion st = JsStr.undef) ∧
    (∀ st : State, (version st).truthy = false → versionString st = version st) ∧
    (∀ st : State, (version st).truthy = false → commitString st = none) ∧
    (∀ st : State, (grpcProtoVersion st).truthy = false →
      hasRouterSupport st = Except.ok false ∧ hasSendPaymentV2Support st = Except.ok false ∧
      hasMppSupport st = Except.ok false) ∧
    (∀ st : State, (identityPubkey st).truthy = false → nodeUris st = JsArr.arr [] →
      nodePubkey st = Except.error ()) ∧
    (∀ st : State, (identityPubkey st).truthy = false → nodeUris st = JsArr.undef →
      nodePubkey st = Except.ok JsStr.undef) ∧
    (∀ st : State, (identityPubkey st).truthy = false → nodeUris st = JsArr.null →
      nodePubkey st = Except.ok JsStr.null) ∧
    (∀ st : State, nodePubkey st = Except.error () → nodeUrisOrPubkey st = Except.error ()) ∧
    (∀ st : State, ∀ pk : JsStr, nodePubkey st = Except.ok pk →
      nodeUris st = JsArr.undef ∨ nodeUris st = JsArr.null →
      nodeUrisOrPubkey st = Except.ok (UrisOrPk.pkList pk)) ∧
    (∀ st : State, networkLookup st.info.networks st.info.chain st.info.network = none →
      networkInfo st = Except.error ()) ∧
    (∀ st : State, st.info.chains = none ∨ st.info.chains = some [] →
      chainName st = JsStr.null) ∧
    (∀ st : State, st.invoice.invoices = [] → invoices st = [] ∧ invoice st = none) ∧
    (∀ st : State, st.invoice.invoice = JsStr.null → invoice st = none) := by
  refine ⟨?_, ?_, ?_, ?_, ?_, ?_, ?_, ?_, ?_, ?_, ?_, ?_, ?_, ?_, ?_, ?_, ?_, ?_, ?_, ?_,
    ?_, ?_, ?_, ?_⟩
  · intro st h
    simp [chainSelector, h]
  · intro st h
    simp [chainsSelector, h]
  · intro st h
    simp [networkSelector, h]
  · intro st h
    simp [networksSelector, h]
  · intro st
    rfl
  · intro st
    rfl
  · intro st h
    simp [hasSynced, h]
  · intro st h
    simp [isSyncedToChain, h]
  · intro st h
    simp [version, h]
  · intro st h
    simp [identityPubkey, h]
  · intro st h
    simp [nodeUris, h]
  · intro st h
    simp [grpcProtoVersion, h]
  · intro st h
    cases hv : version st with
    | undef => simp [versionString, hv]
    | null => simp [versionString, hv]
    | str v =>
      rw [hv] at h
      simp [JsStr.truthy] at h
      simp [versionString, hv, h]
  · intro st h
    cases hv : version st with
    | undef => simp [commitString, hv]
    | null => simp [commitString, hv]
    | str v =>
      rw [hv] at h
      simp [JsStr.truthy] at h
      simp [commitString, hv, h]
  · intro st h
    cases hv : grpcProtoVersion st with
    | undef =>
      exact ⟨by simp [hasRouterSupport, hv], by simp [hasSendPaymentV2Support, hv],
        by simp [hasMppSupport, hv]⟩
    | null =>
      exact ⟨by simp [hasRouterSupport, hv], by simp [hasSendPaymentV2Support, hv],
        by simp [hasMppSupport, hv]⟩
    | str v =>
      rw [hv] at h
      simp [JsStr.truthy] at h
      exact ⟨by simp [hasRouterSupport, hv, h], by simp [hasSendPaymentV2Support, hv, h],
        by simp [hasMppSupport, hv, h]⟩
  · intro st h hu
    simp [nodePubkey, h, hu]
  · intro st h hu
    simp [nodePubkey, h, hu]
  · intro st h hu
    simp [nodePubkey, h, hu]
  · intro st h
    simp [nodeUrisOrPubkey, h]
  · intro st pk h hu
    rcases hu with hu | hu <;> simp [nodeUrisOrPubkey, h, hu]
  · intro st h
    simp [networkInfo, h]
  · intro st h
    rcases h with h | h <;> simp [chainName, h, List.lookup]
  · intro st h
    constructor
    · simp [invoices, invoicesSelector, h]
    · simp [invoice, invoices, invoicesSelector, h]
  · intro st h
    unfold invoice
    refine List.find?_eq_none.mpr ?_
    intro y hy
    simp [strictEq, invoiceSelector, h]

/-- C1 amended witness: every conjunct — all 21 info-module exports and
both invoice-module exports — instantiated on concrete states, including
the three throwing cases and the `nodeUrisOrPubkey` propagation. -/
theorem selectors_default_except_throwing_cases_witness :
    chainSelector emptyState = JsStr.undef ∧
    chainsSelector emptyState = none ∧
    networkSelector emptyState = JsStr.undef ∧
    networksSelector emptyState = none ∧
    infoLoading emptyState = emptyState.info.infoLoading ∧
    infoLoaded emptyState = emptyState.info.infoLoaded ∧
    hasSynced emptyState = none ∧
    isSyncedToChain emptyState = false ∧
    version emptyState = JsStr.undef ∧
    identityPubkey emptyState = JsStr.undef ∧
    nodeUris emptyState = JsArr.undef ∧
    grpcProtoVersion emptyState = JsStr.undef ∧
    versionString emptyState = version emptyState ∧
    commitString emptyState = none ∧
    (hasRouterSupport emptyState = Except.ok false ∧
     hasSendPaymentV2Support emptyState = Except.ok false ∧
     hasMppSupport emptyState = Except.ok false) ∧
    nodePubkey emptyUrisState = Except.error () ∧
    nodePubkey emptyState = Except.ok JsStr.undef ∧
    nodePubkey nullUrisState = Except.ok JsStr.null ∧
    nodeUrisOrPubkey emptyUrisState = Except.error () ∧
    nodeUrisOrPubkey emptyState = Except.ok (UrisOrPk.pkList JsStr.undef) ∧
    networkInfo missingNetworkState = Except.error () ∧
    chainName emptyState = JsStr.null ∧
    (invoices emptyState = [] ∧ invoice emptyState = none) ∧
    invoice nullSelectionState = none := by
  obtain ⟨h1, h2, h3, h4, h5, h6, h7, h8, h9, h10, h11, h12, h13, h14, h15, h16, h17, h18,
    h19, h20, h21, h22, h23, h24⟩ := selectors_default_except_throwing_cases
  exact ⟨h1 emptyState rfl, h2 emptyState rfl, h3 emptyState rfl, h4 emptyState rfl,
    h5 emptyState, h6 emptyState, h7 emptyState rfl, h8 emptyState rfl,
    h9 emptyState rfl, h10 emptyState rfl, h11 emptyState rfl, h12 emptyState rfl,
    h13 emptyState (by decide), h14 emptyState (by decide), h15 emptyState (by decide),
    h16 emptyUrisState (by decide) rfl, h17 emptyState (by decide) rfl,
    h18 nullUrisState (by decide) rfl,
    h19 emptyUrisState (by decide),
    h20 emptyState JsStr.undef (by decide) (Or.inl rfl),
    h21 missingNetworkState (by decide),
    h22 emptyState (Or.inl rfl),
    h23 emptyState rfl,
    h24 nullSelectionState rfl⟩

/-- Helper: the split of a character list is never the empty list. -/
theorem splitOnChar_ne_nil (sep : Char) (cs : List Char) :
    Semver.splitOnChar sep cs ≠ [] := by
  cases cs with
  | nil => simp [Semver.splitOnChar]
  | cons c cs =>
    simp only [Semver.splitOnChar]
    split <;> simp

/-- Helper: the first component of the split is the prefix before the
first separator. -/
theorem splitOnChar_head (sep : Char) (cs : List Char) :
    (Semver.splitOnChar sep cs).head?.getD [] = cs.takeWhile (fun c => c != sep) := by
  induction cs with
  | nil => simp [Semver.splitOnChar]
  | cons c cs ih =>
    by_cases hc : c = sep
    · simp [Semver.splitOnChar, hc]
    · simp [Semver.splitOnChar, hc, ih]

/-- Helper: the second component of the split (when it exists) is the
text between the first separator and the next one. -/
theorem splitOnChar_second (sep : Char) (cs : List Char) :
    ((Semver.splitOnChar sep cs).drop 1).head? =
      (match cs.dropWhile (fun c => c != sep) with
       | [] => none
       | _ :: rest => some (rest.takeWhile (fun c => c != sep))) := by
  induction cs with
  | nil => simp [Semver.splitOnChar]
  | cons c cs ih =>
    by_cases hc : c = sep
    · obtain ⟨a, t, hr⟩ : ∃ a t, Semver.splitOnChar sep cs = a :: t := by
        cases h : Semver.splitOnChar sep cs with
        | nil => exact absurd h (splitOnChar_ne_nil sep cs)
        | cons a t => exact ⟨a, t, rfl⟩
      have hh := splitOnChar_head sep cs
      rw [hr] at hh
      simp only [List.head?, Option.getD] at hh
      simp [Semver.splitOnChar, hc, hr, hh]
    · simp only [Semver.splitOnChar]
      rw [if_neg hc]
      have hb : (c != sep) = true := by simp [hc]
      simp only [List.drop_succ_cons, List.drop_zero, List.dropWhile_cons, hb, if_true]
      rw [← ih]
      cases h : Semver.splitOnChar sep cs with
      | nil => exact absurd h (splitOnChar_ne_nil sep cs)
      | cons a t => simp [h]

/-- C10 counterexample: `versionString` splits on the space character
only, so a tab does not separate tokens, and `commitString` removes the
first occurrence of `commit=` anywhere in the second token, not only a
leading prefix; both disagree with the claim wording on concrete
version strings. -/
theorem version_commit_string_counterexample :
    versionString tabVersionState ≠ claimVersionString tabVersionState ∧
    commitString midCommitState ≠ claimCommitString midCommitState := by
  constructor <;> decide

/-- C10 amended: `versionString` returns the text before the first space
character of the version (the version value itself when falsy), and
`commitString` returns `undefined` when the version is falsy or there is
no nonempty second space-separated token, and otherwise that token with
the first occurrence of `commit=` (anywhere in it) removed. -/
theorem version_commit_string_amended (st : State) :
    versionString st = amendedVersionString st ∧
    commitString st = amendedCommitString st := by
  constructor
  · unfold versionString amendedVersionString
    cases version st with
    | undef => rfl
    | null => rfl
    | str v =>
      by_cases hv : v = ""
      · simp [hv]
      · simp [hv, splitOnChar_head]
  · unfold commitString amendedCommitString
    cases version st with
    | undef => rfl
    | null => rfl
    | str v =>
      by_cases hv : v = ""
      · simp [hv]
      · simp only [hv, if_false]
        have hsec := splitOnChar_second ' ' v.data
        cases hl : (Semver.splitOnChar ' ' v.data).drop 1 with
        | nil =>
          rw [hl] at hsec
          simp only [List.head?] at hsec
          cases hd : v.data.dropWhile (fun c => c != ' ') with
          | nil => simp [hd]
          | cons x rest =>
            rw [hd] at hsec
            exact absurd hsec (by simp)
        | cons c tl =>
          rw [hl] at hsec
          simp only [List.head?] at hsec
          cases hd : v.data.dropWhile (fun c => c != ' ') with
          | nil =>
            rw [hd] at hsec
            exact absurd hsec (by simp)
          | cons x rest =>
            rw [hd] at hsec
            have hceq : c = rest.takeWhile (fun c => c != ' ') := by
              injection hsec
            subst hceq
            rfl

/-- C10 amended witness: on the sample state the code selectors agree
with the amended description, and on the mid-token `commit=` state the
amended description reproduces the code's `xy` output. -/
theorem version_commit_string_amended_witness :
    (versionString sampleState = amendedVersionString sampleState ∧
     commitString sampleState = amendedCommitString sampleState) ∧
    commitString midCommitState = some "xy" ∧
    amendedCommitString midCommitState = some "xy" :=
  ⟨version_commit_string_amended sampleState, by decide, by decide⟩

end Zap
